import Mathlib

/-!
# Helm chart image resolution: a shallow embedding of `main.go`

The program clones a chart repository, lists the sub-directories of its
`charts` directory, resolves an image reference `repository:tag` from the first
usable chart, and asks the container runtime for the image's size and layers.

Everything the program obtains from outside (the file system, the YAML and JSON
decoders, `filepath.Join`, `git`, `docker`, the clock) is a field of `World`;
the functions of `main.go` are translated statement by statement on top of it.
`not_ready.go` holds an older copy of the same functions; the copy served by
`main()` in `main.go` is the one embedded here.
-/

namespace HelmParser

/-! ## Data model -/

/-- Go `error` values, represented by their message (`err.Error()`). -/
abbrev GoError := String

deriving instance DecidableEq for Except

/-- Result of a Go call returning `(T, error)` that may also end in a run-time panic. -/
inductive Outcome (α : Type) where
  | ok (val : α)
  | error (err : GoError)
  | panic (msg : String)
  deriving DecidableEq, Repr

/-- Go struct `type ImageInfo struct { Name string; Size string; Layers int }`. -/
structure ImageInfo where
  Name : String
  Size : String
  Layers : Nat
  deriving DecidableEq, Repr

/-- Go struct `type ChartData struct { AppVersion string }` (key `appVersion`). -/
structure ChartData where
  AppVersion : String
  deriving DecidableEq, Repr

/-- The anonymous struct under key `image` of `ValuesData`. -/
structure ImageSection where
  Repository : String
  Tag : String
  deriving DecidableEq, Repr

/-- Go struct `type ValuesData struct { Image struct { Repository, Tag string } }`. -/
structure ValuesData where
  Image : ImageSection
  deriving DecidableEq, Repr

/-- The part of `os.FileInfo` the program looks at. -/
structure FileInfo where
  isDir : Bool
  deriving DecidableEq, Repr

/-- What `os.Stat` returns: a file info and a nil error, or a nil file info and an
error, which either satisfies `os.IsNotExist` or does not. -/
inductive StatResult where
  | found (info : FileInfo)
  | notExist (err : GoError)
  | failed (err : GoError)
  deriving DecidableEq, Repr

/-- Value of `os.IsNotExist(err)` for the error of a `Stat` call. -/
def StatResult.isNotExist : StatResult → Bool
  | .notExist _ => true
  | _ => false

/-- The `info` result of a `Stat` call: nil whenever the error is not nil. -/
def StatResult.info : StatResult → Option FileInfo
  | .found info => some info
  | _ => none

/-- The part of `os.DirEntry` the program looks at. -/
structure DirEntry where
  name : String
  isDir : Bool
  deriving DecidableEq, Repr

/-- Values produced by `json.Unmarshal` into `interface{}`: numbers are carried by
the exact value of the JSON number literal, the conversion to `float64` is made
where the program asserts `.(float64)`. -/
inductive Json where
  | null
  | bool (b : Bool)
  | num (numerator : Int) (denominator : Nat)
  | str (s : String)
  | arr (items : List Json)
  | obj (fields : List (String × Json))

/-- The outside world as seen by one request. -/
structure World where
  /-- Result of `filepath.Join(a, b)`. -/
  join : String → String → String
  /-- Result of `os.Stat(path)`. -/
  stat : String → StatResult
  /-- Result of `ioutil.ReadFile(path)`. -/
  readFile : String → Except GoError String
  /-- Result of `os.ReadDir(path)`. -/
  readDir : String → Except GoError (List DirEntry)
  /-- Result of `yaml.Unmarshal(content, &chartData)` on a zero `ChartData`: the struct as the
  decoder leaves it, and the error it returns. -/
  unmarshalChart : String → ChartData × Option GoError
  /-- Result of `yaml.Unmarshal(content, &valuesData)` on a zero `ValuesData`. -/
  unmarshalValues : String → ValuesData × Option GoError
  /-- Result of `time.Now().Format("20060102150405")`. -/
  timestamp : String
  /-- Result of `os.MkdirAll("repo_db", os.ModePerm)`: the error, if any. -/
  mkdirAll : String → Option GoError
  /-- Result of `git clone repoURL targetDir`: the error of `cmd.Run()`, if any. -/
  gitClone : String → String → Option GoError
  /-- Result of `docker images -q image`: the combined output (its error is dropped). -/
  dockerImagesQ : String → String
  /-- Result of `docker pull image`: the error of `cmd.Run()`, if any. -/
  dockerPull : String → Option GoError
  /-- Result of `docker image inspect image`: combined output and error. -/
  dockerInspect : String → String × Option GoError
  /-- Result of `json.Unmarshal(out, &inspectData)` with `inspectData []map[string]interface{}`. -/
  jsonUnmarshal : String → Except GoError (List (List (String × Json)))
  /-- Value of `int(f)` when the `float64` `f` does not fit in `int`: the language
  leaves it to the implementation. -/
  intOverflow : Int
  /-- Result of `template.ParseFiles(path)`: the error, if any. -/
  parseFiles : String → Option GoError

/-! ## Chart directory enumeration -/

/-- Message of the run-time panic raised by a method call on a nil interface. -/
def nilDereference : String :=
  "runtime error: invalid memory address or nil pointer dereference"

/-- Function `navigateToHelmChart` (`main.go` lines 65-88). The test
`os.IsNotExist(err) || !info.IsDir()` evaluates `info.IsDir()` only when the left
operand is false; `info` is nil when `Stat` failed. -/
def navigateToHelmChart (w : World) (repoPath : String) : Outcome (List String) :=
  let chartsDir := w.join repoPath "charts"
  let st := w.stat chartsDir
  if st.isNotExist then .ok []
  else
    match st.info with
    | none => .panic nilDereference
    | some info =>
      if !info.isDir then .ok []
      else
        match w.readDir chartsDir with
        | .error err => .error ("failed to read charts directory: " ++ err)
        | .ok entries =>
          .ok ((entries.filter (fun entry => entry.isDir)).map
            (fun entry => w.join chartsDir entry.name))

/-! ## Image reference resolution -/

/-- Function `checkAndParseHelmFiles` (`main.go` lines 91-139): the `for` loop over the
candidate directories; `continue` is the recursive call on the rest. The errors of
both `yaml.Unmarshal` calls are dropped, only the structs are used. -/
def checkAndParseHelmFiles (w : World) : List String → Except GoError String
  | [] => .error "no valid Helm chart found"
  | chartDir :: rest =>
    let chartYamlPath := w.join chartDir "Chart.yaml"
    let valuesYamlPath := w.join chartDir "values.yaml"
    if (w.stat chartYamlPath).isNotExist then checkAndParseHelmFiles w rest
    else if (w.stat valuesYamlPath).isNotExist then checkAndParseHelmFiles w rest
    else
      match w.readFile chartYamlPath with
      | .error err => .error err
      | .ok chartContent =>
        match w.readFile valuesYamlPath with
        | .error err => .error err
        | .ok valuesContent =>
          let chartData := (w.unmarshalChart chartContent).1
          let valuesData := (w.unmarshalValues valuesContent).1
          let repo := valuesData.Image.Repository
          let tag := valuesData.Image.Tag
          if repo = "" then checkAndParseHelmFiles w rest
          else
            let tag := if tag = "" then chartData.AppVersion else tag
            .ok (repo ++ ":" ++ tag)

/-! ## `float64` arithmetic

A finite `float64` is kept as sign, integer significand and binary exponent; its
value is `± mant * 2 ^ exp`. Rounding is to nearest, ties to even, with 53
significant bits (fewer below `2 ^ (-1022)`); values too large for `float64` do
not occur in this program, whose numbers come out of a successful JSON decode or
out of an `int`. -/

/-- A finite `float64` value `± mant * 2 ^ exp`. -/
structure Float64 where
  neg : Bool
  mant : Nat
  exp : Int
  deriving DecidableEq, Repr

/-- Number of binary digits of `n`, by repeated halving. -/
def bitLengthAux : Nat → Nat → Nat
  | 0, _ => 0
  | fuel + 1, n => if n = 0 then 0 else bitLengthAux fuel (n / 2) + 1

/-- Number of binary digits of `n` (`0` for `0`). -/
def bitLength (n : Nat) : Nat := bitLengthAux n n

/-- The integer nearest to `a / b`, ties to the even one. -/
def divRoundHalfEven (a b : Nat) : Nat :=
  let q := a / b
  let r := a % b
  if 2 * r < b then q
  else if b < 2 * r then q + 1
  else if q % 2 = 0 then q else q + 1

/-- Numerator of `(a / b) / 2 ^ e` written as a quotient of naturals. -/
def scaledNum (a : Nat) (e : Int) : Nat := if e < 0 then a * 2 ^ e.natAbs else a

/-- Denominator of `(a / b) / 2 ^ e` written as a quotient of naturals. -/
def scaledDen (b : Nat) (e : Int) : Nat := if e < 0 then b else b * 2 ^ e.toNat

/-- The exponent `k` with `2 ^ k ≤ a / b < 2 ^ (k + 1)`, for positive `a` and `b`. -/
def floorLog2Quot (a b : Nat) : Int :=
  let k : Int := (bitLength a : Int) - (bitLength b : Int)
  if scaledDen b k ≤ scaledNum a k then k else k - 1

/-- The `float64` nearest to `± a / b`. -/
def roundToFloat64 (neg : Bool) (a b : Nat) : Float64 :=
  if a = 0 then ⟨neg, 0, 0⟩
  else
    let e : Int := max (floorLog2Quot a b - 52) (-1074)
    ⟨neg, divRoundHalfEven (scaledNum a e) (scaledDen b e), e⟩

/-- The `float64` stored by `json.Unmarshal` for a number literal. -/
def float64OfLiteral (numerator : Int) (denominator : Nat) : Float64 :=
  roundToFloat64 (decide (numerator < 0)) numerator.natAbs denominator

/-- The conversion `int(f)`: truncation toward zero; `overflow` when the result does not
fit in 64 bits. -/
def intOfFloat64 (overflow : Int) (f : Float64) : Int :=
  let t : Nat := if f.exp < 0 then f.mant / 2 ^ f.exp.natAbs else f.mant * 2 ^ f.exp.toNat
  let v : Int := if f.neg then -(t : Int) else (t : Int)
  if -(2 : Int) ^ 63 ≤ v ∧ v < (2 : Int) ^ 63 then v else overflow

/-- The conversion `float64(size)`. -/
def float64OfInt (i : Int) : Float64 := roundToFloat64 (decide (i < 0)) i.natAbs 1

/-- The quotient `f / (1000*1000)` in `float64`. -/
def float64DivMillion (f : Float64) : Float64 :=
  roundToFloat64 f.neg (scaledNum f.mant (-f.exp)) (scaledDen 1000000 (-f.exp))

/-- The decimal digit `d` as a character. -/
def digitChar (d : Nat) : Char := Char.ofNat (48 + d)

/-- A number of hundredths written with two fractional digits. -/
def renderHundredths (h : Nat) : String :=
  toString (h / 100) ++ "." ++ String.mk [digitChar (h / 10 % 10), digitChar (h % 10)]

/-- The verb `%.2f` of `fmt.Sprintf`: the exact value of `f` rounded to two fractional
digits, ties to even. -/
def formatFixed2 (f : Float64) : String :=
  (if f.neg then "-" else "") ++
    renderHundredths (divRoundHalfEven (100 * scaledNum f.mant (-f.exp)) (scaledDen 1 (-f.exp)))

/-- Value of `fmt.Sprintf("%.2f MB", float64(size)/(1000*1000))`. -/
def sprintfSize (size : Int) : String :=
  formatFixed2 (float64DivMillion (float64OfInt size)) ++ " MB"

/-! ## Image inspection -/

/-- Dynamic type of an `interface{}` value as the run-time prints it. -/
def goTypeName : Option Json → String
  | none => "nil"
  | some .null => "nil"
  | some (.bool _) => "bool"
  | some (.num _ _) => "float64"
  | some (.str _) => "string"
  | some (.arr _) => "[]interface {}"
  | some (.obj _) => "map[string]interface {}"

/-- Message of the panic raised by a failed type assertion `x.(T)`. -/
def conversionPanic (x : Option Json) (target : String) : String :=
  "interface conversion: interface {} is " ++ goTypeName x ++ ", not " ++ target

/-- The type assertion `x.(float64)`. -/
def assertFloat64 : Option Json → Except String Float64
  | some (.num numerator denominator) => .ok (float64OfLiteral numerator denominator)
  | x => .error (conversionPanic x "float64")

/-- The type assertion `x.(map[string]interface{})`. -/
def assertMap : Option Json → Except String (List (String × Json))
  | some (.obj fields) => .ok fields
  | x => .error (conversionPanic x "map[string]interface {}")

/-- The type assertion `x.([]interface{})`. -/
def assertSlice : Option Json → Except String (List Json)
  | some (.arr items) => .ok items
  | x => .error (conversionPanic x "[]interface {}")

/-- Function `getImageSizeAndLayers` (`main.go` lines 147-189). -/
def getImageSizeAndLayers (w : World) (imageName : String) : Outcome ImageInfo :=
  let imageID := w.dockerImagesQ imageName
  let pullErr : Option GoError := if imageID = "" then w.dockerPull imageName else none
  match pullErr with
  | some err => .error ("failed to pull image: " ++ err)
  | none =>
    match w.dockerInspect imageName with
    | (_, some err) => .error ("failed to inspect image: " ++ err)
    | (inspectOut, none) =>
      match w.jsonUnmarshal inspectOut with
      | .error _ => .error "failed to parse inspect data"
      | .ok [] => .error "failed to parse inspect data"
      | .ok (record :: _) =>
        match assertFloat64 (record.lookup "Size") with
        | .error msg => .panic msg
        | .ok f =>
          let size := intOfFloat64 w.intOverflow f
          match assertMap (record.lookup "RootFS") with
          | .error msg => .panic msg
          | .ok rootFS =>
            match assertSlice (rootFS.lookup "Layers") with
            | .error msg => .panic msg
            | .ok layerList =>
              .ok { Name := imageName, Size := sprintfSize size, Layers := layerList.length }

/-! ## Repository retrieval -/

/-- Go function `strings.TrimSuffix(s, suffix)`. -/
def trimSuffix (s suffix : String) : String :=
  let rs := s.data.reverse
  let rsuffix := suffix.data.reverse
  if rsuffix.isPrefixOf rs then String.mk (rs.drop rsuffix.length).reverse else s

/-- Splitting a character list at every occurrence of `sep`. -/
def splitChars (sep : Char) : List Char → List (List Char)
  | [] => [[]]
  | c :: cs =>
    if c = sep then [] :: splitChars sep cs
    else
      match splitChars sep cs with
      | [] => [[c]]
      | part :: parts => (c :: part) :: parts

/-- Go function `strings.Split(s, sep)` for a one-character separator. -/
def stringsSplit (s : String) (sep : Char) : List String :=
  (splitChars sep s.data).map String.mk

/-- Function `cloneHelmRepo` (`main.go` lines 42-62). -/
def cloneHelmRepo (w : World) (repoURL : String) : Except GoError String :=
  let parts := stringsSplit (trimSuffix repoURL "/") '/'
  let repoName := trimSuffix (parts.getLastD "") ".git"
  let targetDir := w.join "repo_db" (w.timestamp ++ "_" ++ repoName)
  match w.mkdirAll "repo_db" with
  | some err => .error ("failed to create repo_db directory: " ++ err)
  | none =>
    match w.gitClone repoURL targetDir with
    | some err => .error ("git clone failed: " ++ err)
    | none => .ok targetDir

/-! ## The `/imagedetails` handler -/

/-- The four stages the handler runs. -/
inductive Stage where
  | retrieve
  | enumerate
  | resolve
  | inspect
  deriving DecidableEq, Repr

/-- What the handler does to the response writer. -/
inductive Response where
  /-- The call `http.Error(w, message, status)`. -/
  | httpError (message : String) (status : Nat)
  /-- The call `tmpl.Execute(w, imageInfo)` on the parsed template. -/
  | page (template : String) (info : ImageInfo)
  /-- A panic unwinds the handler before anything is written. -/
  | crashed (msg : String)
  deriving DecidableEq, Repr

/-- Response of a request together with the stages that were called, in order. -/
structure Handled where
  response : Response
  invoked : List Stage
  deriving DecidableEq, Repr

/-- Constant `http.StatusInternalServerError`. -/
def statusInternalServerError : Nat := 500

/-- Constant `http.StatusNotFound`. -/
def statusNotFound : Nat := 404

/-- Function `imageDetailsHandler` (`main.go` lines 199-229), for the form value `repo_url`. -/
def imageDetailsHandler (w : World) (repoURL : String) : Handled :=
  match cloneHelmRepo w repoURL with
  | .error err => ⟨.httpError err statusInternalServerError, [.retrieve]⟩
  | .ok targetDir =>
    match navigateToHelmChart w targetDir with
    | .panic msg => ⟨.crashed msg, [.retrieve, .enumerate]⟩
    | .error err => ⟨.httpError err statusNotFound, [.retrieve, .enumerate]⟩
    | .ok helmDirs =>
      match checkAndParseHelmFiles w helmDirs with
      | .error err => ⟨.httpError err statusNotFound, [.retrieve, .enumerate, .resolve]⟩
      | .ok imageName =>
        match getImageSizeAndLayers w imageName with
        | .panic msg => ⟨.crashed msg, [.retrieve, .enumerate, .resolve, .inspect]⟩
        | .error err =>
          ⟨.httpError err statusInternalServerError, [.retrieve, .enumerate, .resolve, .inspect]⟩
        | .ok imageInfo =>
          match w.parseFiles "templates/image_details.html" with
          | some err => ⟨.crashed err, [.retrieve, .enumerate, .resolve, .inspect]⟩
          | none =>
            ⟨.page "templates/image_details.html" imageInfo,
              [.retrieve, .enumerate, .resolve, .inspect]⟩

/-! ## Specification vocabulary -/

/-- The loop of `checkAndParseHelmFiles` moves on from `chartDir` without returning:
its `Chart.yaml` is missing, or its `values.yaml` is missing, or both files are read
and the decoded values carry an empty `image.repository`. -/
def SkipsCandidate (w : World) (chartDir : String) : Prop :=
  (w.stat (w.join chartDir "Chart.yaml")).isNotExist = true ∨
  (w.stat (w.join chartDir "values.yaml")).isNotExist = true ∨
  ∃ chartContent valuesContent,
    w.readFile (w.join chartDir "Chart.yaml") = .ok chartContent ∧
    w.readFile (w.join chartDir "values.yaml") = .ok valuesContent ∧
    (w.unmarshalValues valuesContent).1.Image.Repository = ""

/-- The world in which a document that fails to decode counts as a document without
any of the fields `appVersion`, `image.repository`, `image.tag`. -/
def fieldsAbsentOnFailure (w : World) : World :=
  { w with
    unmarshalChart := fun content =>
      match w.unmarshalChart content with
      | (_, some err) => (⟨""⟩, some err)
      | (data, none) => (data, none)
    unmarshalValues := fun content =>
      match w.unmarshalValues content with
      | (_, some err) => (⟨⟨"", ""⟩⟩, some err)
      | (data, none) => (data, none) }

/-- The world whose decoders fill the structs as in `w` and never report an error. -/
def withoutParseErrors (w : World) : World :=
  { w with
    unmarshalChart := fun content => ((w.unmarshalChart content).1, none)
    unmarshalValues := fun content => ((w.unmarshalValues content).1, none) }

/-- The number `h / 100` is within half a hundredth of `n / 1000000`. -/
def NearestHundredth (h n : Nat) : Prop :=
  h * 10000 ≤ n + 5000 ∧ n ≤ h * 10000 + 5000

instance (h n : Nat) : Decidable (NearestHundredth h n) :=
  inferInstanceAs (Decidable (h * 10000 ≤ n + 5000 ∧ n ≤ h * 10000 + 5000))

/-! ## Example worlds -/

/-- Decoding of the chart-metadata documents used in the examples. -/
def exampleChartDecoder : String → ChartData × Option GoError
  | "appVersion: 1.2.0\n" => (⟨"1.2.0"⟩, none)
  | "appVersion: 0.9.1\n" => (⟨"0.9.1"⟩, none)
  | "appVersion: [1.2.0\n" => (⟨""⟩, some "yaml: line 1: did not find expected ',' or ']'")
  | _ => (⟨""⟩, none)

/-- Decoding of the values documents used in the examples. -/
def exampleValuesDecoder : String → ValuesData × Option GoError
  | "image:\n  repository: example/api\n  tag: \"\"\n" => (⟨⟨"example/api", ""⟩⟩, none)
  | "image:\n  repository: example/web\n  tag: v3\n" => (⟨⟨"example/web", "v3"⟩⟩, none)
  | "image:\n  tag: v1\n" => (⟨⟨"", "v1"⟩⟩, none)
  | "image:\n  repository: \"example/api\n" =>
    (⟨⟨"", ""⟩⟩, some "yaml: line 3: found unexpected end of stream")
  | _ => (⟨⟨"", ""⟩⟩, none)

/-- The decoder of the examples, extended with a document that has a sequence where
the string `tag` is expected: `yaml.Unmarshal` fills `repository`, leaves `tag` and
reports the mismatch in a `*yaml.TypeError`. -/
def mistypedValuesDecoder : String → ValuesData × Option GoError
  | "image:\n  repository: example/api\n  tag: [1]\n" =>
    (⟨⟨"example/api", ""⟩⟩,
      some "yaml: unmarshal errors:\n  line 3: cannot unmarshal !!seq into string")
  | content => exampleValuesDecoder content

/-- A world over a finite file system: `dirs` lists the directories with their
entries, `files` the regular files with their content, `unreadable` the regular
files that exist and cannot be opened, `denied` the paths on which `Stat` fails
with a permission error. The runtime knows no image. -/
def fileWorld (dirs : List (String × List DirEntry)) (files : List (String × String))
    (unreadable denied : List String) : World where
  join a b := a ++ "/" ++ b
  stat path :=
    if path ∈ denied then .failed ("stat " ++ path ++ ": permission denied")
    else if (dirs.lookup path).isSome then .found ⟨true⟩
    else if (files.lookup path).isSome ∨ path ∈ unreadable then .found ⟨false⟩
    else .notExist ("stat " ++ path ++ ": no such file or directory")
  readFile path :=
    match files.lookup path with
    | some content => .ok content
    | none =>
      if path ∈ unreadable then .error ("open " ++ path ++ ": permission denied")
      else .error ("open " ++ path ++ ": no such file or directory")
  readDir path :=
    match dirs.lookup path with
    | some entries => .ok entries
    | none => .error ("open " ++ path ++ ": no such file or directory")
  unmarshalChart := exampleChartDecoder
  unmarshalValues := exampleValuesDecoder
  timestamp := "20250403153000"
  mkdirAll _ := none
  gitClone _ _ := none
  dockerImagesQ _ := ""
  dockerPull _ := some "exit status 1"
  dockerInspect _ := ("", some "exit status 1")
  jsonUnmarshal _ := .error "unexpected end of JSON input"
  intOverflow := -(2 : Int) ^ 63
  parseFiles _ := none

/-- Checkout with `charts/api/{Chart.yaml: appVersion=1.2.0, values.yaml:
image.repository=example/api, image.tag=""}`. -/
def apiWorld : World :=
  fileWorld
    [("charts", [⟨"api", true⟩]), ("charts/api", [⟨"Chart.yaml", false⟩, ⟨"values.yaml", false⟩])]
    [("charts/api/Chart.yaml", "appVersion: 1.2.0\n"),
     ("charts/api/values.yaml", "image:\n  repository: example/api\n  tag: \"\"\n")]
    [] []

/-- Checkout with `charts/api` lacking `values.yaml`, `charts/lib` whose values name
no repository, and `charts/web` with `image.repository=example/web, image.tag=v3`. -/
def webWorld : World :=
  fileWorld
    [("charts", [⟨"api", true⟩, ⟨"lib", true⟩, ⟨"README.md", false⟩, ⟨"web", true⟩]),
     ("charts/api", [⟨"Chart.yaml", false⟩]),
     ("charts/lib", [⟨"Chart.yaml", false⟩, ⟨"values.yaml", false⟩]),
     ("charts/web", [⟨"Chart.yaml", false⟩, ⟨"values.yaml", false⟩])]
    [("charts/api/Chart.yaml", "appVersion: 1.2.0\n"),
     ("charts/lib/Chart.yaml", "appVersion: 0.9.1\n"),
     ("charts/lib/values.yaml", "image:\n  tag: v1\n"),
     ("charts/web/Chart.yaml", "appVersion: 0.9.1\n"),
     ("charts/web/values.yaml", "image:\n  repository: example/web\n  tag: v3\n")]
    [] []

/-- Checkout in which the values file of `charts/api` has a sequence under `tag`, and
`charts/web` is well formed. -/
def mistypedTagWorld : World :=
  { fileWorld
      [("charts", [⟨"api", true⟩, ⟨"web", true⟩]),
       ("charts/api", [⟨"Chart.yaml", false⟩, ⟨"values.yaml", false⟩]),
       ("charts/web", [⟨"Chart.yaml", false⟩, ⟨"values.yaml", false⟩])]
      [("charts/api/Chart.yaml", "appVersion: 1.2.0\n"),
       ("charts/api/values.yaml", "image:\n  repository: example/api\n  tag: [1]\n"),
       ("charts/web/Chart.yaml", "appVersion: 0.9.1\n"),
       ("charts/web/values.yaml", "image:\n  repository: example/web\n  tag: v3\n")]
      [] [] with
    unmarshalValues := mistypedValuesDecoder }

/-- Checkout in which both documents of `charts/api` are cut short, and `charts/web` is
well formed. -/
def truncatedWorld : World :=
  fileWorld
    [("charts", [⟨"api", true⟩, ⟨"web", true⟩]),
     ("charts/api", [⟨"Chart.yaml", false⟩, ⟨"values.yaml", false⟩]),
     ("charts/web", [⟨"Chart.yaml", false⟩, ⟨"values.yaml", false⟩])]
    [("charts/api/Chart.yaml", "appVersion: [1.2.0\n"),
     ("charts/api/values.yaml", "image:\n  repository: \"example/api\n"),
     ("charts/web/Chart.yaml", "appVersion: 0.9.1\n"),
     ("charts/web/values.yaml", "image:\n  repository: example/web\n  tag: v3\n")]
    [] []

/-- Checkout in which `charts/api/values.yaml` exists and cannot be opened, followed by
a well-formed `charts/web`. -/
def unreadableWorld : World :=
  fileWorld
    [("charts", [⟨"api", true⟩, ⟨"web", true⟩]),
     ("charts/api", [⟨"Chart.yaml", false⟩, ⟨"values.yaml", false⟩]),
     ("charts/web", [⟨"Chart.yaml", false⟩, ⟨"values.yaml", false⟩])]
    [("charts/api/Chart.yaml", "appVersion: 1.2.0\n"),
     ("charts/web/Chart.yaml", "appVersion: 0.9.1\n"),
     ("charts/web/values.yaml", "image:\n  repository: example/web\n  tag: v3\n")]
    ["charts/api/values.yaml"] []

/-- Checkout `repo` whose entry `charts` is a regular file. -/
def chartsFileWorld : World :=
  fileWorld [("repo", [⟨"charts", false⟩])] [("repo/charts", "not a directory\n")] [] []

/-- Checkout `repo` on which `Stat` of `repo/charts` fails with a permission error. -/
def deniedWorld : World :=
  fileWorld [("repo", [])] [] [] ["repo/charts"]

/-- The world `base` with a runtime that holds the image `image` when `present`, pulls
it without error, and answers its inspection with the text `inspectOut`, decoded by
`json.Unmarshal` into `records`. -/
def withImage (base : World) (image : String) (present : Bool) (inspectOut : String)
    (records : List (List (String × Json))) : World :=
  { base with
    dockerImagesQ := fun name => if name = image ∧ present = true then "3f1c8a2b9d04\n" else ""
    dockerPull := fun name => if name = image then none else some "exit status 1"
    dockerInspect := fun name =>
      if name = image then (inspectOut, none)
      else ("[]\nError response from daemon: No such image: " ++ name ++ "\n",
        some "exit status 1")
    jsonUnmarshal := fun out =>
      if out = inspectOut then .ok records
      else .error "invalid character 'E' after top-level value" }

/-- A runtime whose image `example/app:1.0` is present, with the byte count `size` and
the layer list `layers` in its first inspection record. -/
def sizedImageWorld (size : Nat) (layers : List Json) : World :=
  withImage (fileWorld [] [] [] []) "example/app:1.0" true "[{...}]"
    [[("Id", .str "sha256:3f1c8a2b9d04"), ("Size", .num size 1),
      ("RootFS", .obj [("Type", .str "layers"), ("Layers", .arr layers)])]]

/-- The checkout made for `https://github.com/example/charts.git`: `charts/api` without
`values.yaml`, a file `charts/README.md`, and `charts/web` with
`image.repository=example/web, image.tag=v3`. -/
def clonedWorld : World :=
  fileWorld
    [("repo_db/20250403153000_charts/charts",
        [⟨"README.md", false⟩, ⟨"api", true⟩, ⟨"web", true⟩]),
     ("repo_db/20250403153000_charts/charts/api", [⟨"Chart.yaml", false⟩]),
     ("repo_db/20250403153000_charts/charts/web",
        [⟨"Chart.yaml", false⟩, ⟨"values.yaml", false⟩])]
    [("repo_db/20250403153000_charts/charts/README.md", "# charts\n"),
     ("repo_db/20250403153000_charts/charts/api/Chart.yaml", "appVersion: 1.2.0\n"),
     ("repo_db/20250403153000_charts/charts/web/Chart.yaml", "appVersion: 0.9.1\n"),
     ("repo_db/20250403153000_charts/charts/web/values.yaml",
        "image:\n  repository: example/web\n  tag: v3\n")]
    [] []

/-- The checkout of `clonedWorld` and a runtime that pulls `example/web:v3` and reports
`Size=2000000`, `RootFS.Layers=[a,b,c]` for it. -/
def pipelineWorld : World :=
  withImage clonedWorld "example/web:v3" false "[{...}]"
    [[("Id", .str "sha256:77aa01c5e2f3"), ("Size", .num 2000000 1),
      ("RootFS", .obj [("Type", .str "layers"),
        ("Layers", .arr [.str "a", .str "b", .str "c"])])]]

/-- The world of `pipelineWorld` in which `git clone` fails. -/
def cloneFailsWorld : World :=
  { pipelineWorld with gitClone := fun _ _ => some "exit status 128" }

/-- The world of `pipelineWorld` in which the charts directory cannot be listed. -/
def unlistableWorld : World :=
  { pipelineWorld with
    readDir := fun path => .error ("open " ++ path ++ ": permission denied") }

/-- The world of `pipelineWorld` with a runtime that cannot pull anything. -/
def pullFailsWorld : World :=
  { pipelineWorld with dockerPull := fun _ => some "exit status 1" }

end HelmParser

/-! ## Resolution: the loop skips, returns or fails -/

namespace HelmParser

theorem checkAndParseHelmFiles_skip (w : World) (chartDir : String) (rest : List String)
    (h : SkipsCandidate w chartDir) :
    checkAndParseHelmFiles w (chartDir :: rest) = checkAndParseHelmFiles w rest := by
  rcases h with h | h | ⟨chartContent, valuesContent, hc, hv, hr⟩
  · simp [checkAndParseHelmFiles, h]
  · simp [checkAndParseHelmFiles, h]
  · simp [checkAndParseHelmFiles, hc, hv, hr]

theorem checkAndParseHelmFiles_skip_all (w : World) (skipped rest : List String)
    (h : ∀ d ∈ skipped, SkipsCandidate w d) :
    checkAndParseHelmFiles w (skipped ++ rest) = checkAndParseHelmFiles w rest := by
  induction skipped with
  | nil => rfl
  | cons d ds ih =>
    rw [List.cons_append, checkAndParseHelmFiles_skip w d _ (h d (List.mem_cons_self d ds))]
    exact ih (fun x hx => h x (List.mem_cons_of_mem d hx))

theorem checkAndParseHelmFiles_found (w : World) (chartDir : String) (rest : List String)
    (chartContent valuesContent : String)
    (hchart : (w.stat (w.join chartDir "Chart.yaml")).isNotExist = false)
    (hvalues : (w.stat (w.join chartDir "values.yaml")).isNotExist = false)
    (hreadChart : w.readFile (w.join chartDir "Chart.yaml") = .ok chartContent)
    (hreadValues : w.readFile (w.join chartDir "values.yaml") = .ok valuesContent)
    (hrepo : (w.unmarshalValues valuesContent).1.Image.Repository ≠ "") :
    checkAndParseHelmFiles w (chartDir :: rest) =
      .ok ((w.unmarshalValues valuesContent).1.Image.Repository ++ ":" ++
        (if (w.unmarshalValues valuesContent).1.Image.Tag = ""
          then (w.unmarshalChart chartContent).1.AppVersion
          else (w.unmarshalValues valuesContent).1.Image.Tag)) := by
  simp [checkAndParseHelmFiles, hchart, hvalues, hreadChart, hreadValues, hrepo]

/-- C1. Tag selection: when every candidate before `chartDir` is skipped and `chartDir`
has both files, readable, with decoded repository `r` (not empty), tag `t` and
application version `v`, the result is `r:t` if `t` is not empty, whatever `v` is, and
`r:v` if `t` is empty. -/
theorem checkAndParseHelmFiles_tag_selection (w : World) (skipped : List String)
    (chartDir : String) (later : List String) (chartContent valuesContent r t v : String)
    (hskip : ∀ d ∈ skipped, SkipsCandidate w d)
    (hchart : (w.stat (w.join chartDir "Chart.yaml")).isNotExist = false)
    (hvalues : (w.stat (w.join chartDir "values.yaml")).isNotExist = false)
    (hreadChart : w.readFile (w.join chartDir "Chart.yaml") = .ok chartContent)
    (hreadValues : w.readFile (w.join chartDir "values.yaml") = .ok valuesContent)
    (hdecodedValues : (w.unmarshalValues valuesContent).1 = ⟨⟨r, t⟩⟩)
    (hdecodedChart : (w.unmarshalChart chartContent).1 = ⟨v⟩)
    (hr : r ≠ "") :
    (t ≠ "" → checkAndParseHelmFiles w (skipped ++ chartDir :: later) = .ok (r ++ ":" ++ t)) ∧
    (t = "" → checkAndParseHelmFiles w (skipped ++ chartDir :: later) = .ok (r ++ ":" ++ v)) := by
  have hrepo : (w.unmarshalValues valuesContent).1.Image.Repository ≠ "" := by
    rw [hdecodedValues]; exact hr
  have key := checkAndParseHelmFiles_found w chartDir later chartContent valuesContent
    hchart hvalues hreadChart hreadValues hrepo
  rw [hdecodedValues, hdecodedChart] at key
  rw [checkAndParseHelmFiles_skip_all w skipped _ hskip, key]
  constructor
  · intro ht; simp [ht]
  · intro ht; simp [ht]

/-- Witness of C1: `charts/api` with `appVersion=1.2.0`, `repository=example/api` and an
empty tag resolves to `example/api:1.2.0`. -/
theorem checkAndParseHelmFiles_tag_selection_witness :
    checkAndParseHelmFiles apiWorld ["charts/api"] = .ok "example/api:1.2.0" :=
  (checkAndParseHelmFiles_tag_selection apiWorld [] "charts/api" [] "appVersion: 1.2.0\n"
    "image:\n  repository: example/api\n  tag: \"\"\n" "example/api" "" "1.2.0"
    (by simp) (by decide) (by decide) (by decide) (by decide) (by decide) (by decide)
    (by decide)).2 rfl

/-- C2. First match wins: when every candidate before `chartDir` is skipped (a file is
missing, or the repository is empty) and `chartDir` has both files, readable, with a
non-empty repository, the result on the whole list is the result on `chartDir` alone,
which is a reference built from `chartDir`; the candidates after it play no part. -/
theorem checkAndParseHelmFiles_first_match_wins (w : World) (skipped : List String)
    (chartDir : String) (later : List String) (chartContent valuesContent : String)
    (hskip : ∀ d ∈ skipped, SkipsCandidate w d)
    (hchart : (w.stat (w.join chartDir "Chart.yaml")).isNotExist = false)
    (hvalues : (w.stat (w.join chartDir "values.yaml")).isNotExist = false)
    (hreadChart : w.readFile (w.join chartDir "Chart.yaml") = .ok chartContent)
    (hreadValues : w.readFile (w.join chartDir "values.yaml") = .ok valuesContent)
    (hrepo : (w.unmarshalValues valuesContent).1.Image.Repository ≠ "") :
    checkAndParseHelmFiles w (skipped ++ chartDir :: later) =
      checkAndParseHelmFiles w [chartDir] ∧
    ∃ tag, checkAndParseHelmFiles w [chartDir] =
      .ok ((w.unmarshalValues valuesContent).1.Image.Repository ++ ":" ++ tag) := by
  have one := checkAndParseHelmFiles_found w chartDir [] chartContent valuesContent
    hchart hvalues hreadChart hreadValues hrepo
  have all := checkAndParseHelmFiles_found w chartDir later chartContent valuesContent
    hchart hvalues hreadChart hreadValues hrepo
  refine ⟨?_, _, one⟩
  rw [checkAndParseHelmFiles_skip_all w skipped _ hskip, all, one]

/-- Witness of C2: `charts/api` has no `values.yaml`, `charts/lib` names no repository,
`charts/web` has `repository=example/web` and `tag=v3`: the result is `example/web:v3`,
also when further candidates follow. -/
theorem checkAndParseHelmFiles_first_match_wins_witness :
    checkAndParseHelmFiles webWorld ["charts/api", "charts/lib", "charts/web", "charts/api"] =
      checkAndParseHelmFiles webWorld ["charts/web"] ∧
    checkAndParseHelmFiles webWorld ["charts/web"] = .ok "example/web:v3" :=
  ⟨(checkAndParseHelmFiles_first_match_wins webWorld ["charts/api", "charts/lib"] "charts/web"
      ["charts/api"] "appVersion: 0.9.1\n" "image:\n  repository: example/web\n  tag: v3\n"
      (by
        intro d hd
        simp only [List.mem_cons, List.mem_singleton, List.not_mem_nil, or_false] at hd
        rcases hd with rfl | rfl
        · exact Or.inr (Or.inl (by decide))
        · exact Or.inr (Or.inr ⟨"appVersion: 0.9.1\n", "image:\n  tag: v1\n",
            by decide, by decide, by decide⟩))
      (by decide) (by decide) (by decide) (by decide) (by decide)).1,
   by decide⟩

/-- C3. Not found: on every candidate list (the empty one included) in which each
candidate lacks `Chart.yaml` or `values.yaml`, the result is the error
`no valid Helm chart found` and no reference; the same holds when each candidate is
skipped for a missing file or for an empty repository. -/
theorem checkAndParseHelmFiles_not_found (w : World) (dirs : List String) :
    ((∀ d ∈ dirs, (w.stat (w.join d "Chart.yaml")).isNotExist = true ∨
        (w.stat (w.join d "values.yaml")).isNotExist = true) →
      checkAndParseHelmFiles w dirs = .error "no valid Helm chart found") ∧
    ((∀ d ∈ dirs, SkipsCandidate w d) →
      checkAndParseHelmFiles w dirs = .error "no valid Helm chart found") := by
  have main : (∀ d ∈ dirs, SkipsCandidate w d) →
      checkAndParseHelmFiles w dirs = .error "no valid Helm chart found" := by
    intro h
    have := checkAndParseHelmFiles_skip_all w dirs [] h
    rw [List.append_nil] at this
    rw [this]; rfl
  refine ⟨fun h => main (fun d hd => ?_), main⟩
  rcases h d hd with h1 | h2
  · exact Or.inl h1
  · exact Or.inr (Or.inl h2)

/-- Witness of C3: the empty list, a list whose candidates each lack a file, and a list
whose candidates lack a file or name no repository. -/
theorem checkAndParseHelmFiles_not_found_witness :
    checkAndParseHelmFiles webWorld [] = .error "no valid Helm chart found" ∧
    checkAndParseHelmFiles webWorld ["charts/api", "charts/none"] =
      .error "no valid Helm chart found" ∧
    checkAndParseHelmFiles webWorld ["charts/lib", "charts/api"] =
      .error "no valid Helm chart found" :=
  ⟨(checkAndParseHelmFiles_not_found webWorld []).1 (by simp),
   (checkAndParseHelmFiles_not_found webWorld ["charts/api", "charts/none"]).1 (by
      intro d hd
      simp only [List.mem_cons, List.mem_singleton, List.not_mem_nil, or_false] at hd
      rcases hd with rfl | rfl
      · exact Or.inr (by decide)
      · exact Or.inl (by decide)),
   (checkAndParseHelmFiles_not_found webWorld ["charts/lib", "charts/api"]).2 (by
      intro d hd
      simp only [List.mem_cons, List.mem_singleton, List.not_mem_nil, or_false] at hd
      rcases hd with rfl | rfl
      · exact Or.inr (Or.inr ⟨"appVersion: 0.9.1\n", "image:\n  tag: v1\n",
          by decide, by decide, by decide⟩)
      · exact Or.inr (Or.inl (by decide)))⟩

theorem checkAndParseHelmFiles_congr (w w' : World) (dirs : List String)
    (hjoin : w'.join = w.join) (hstat : w'.stat = w.stat) (hread : w'.readFile = w.readFile)
    (hchart : ∀ d ∈ dirs, ∀ c, w.readFile (w.join d "Chart.yaml") = .ok c →
      (w'.unmarshalChart c).1 = (w.unmarshalChart c).1)
    (hvalues : ∀ d ∈ dirs, ∀ c, w.readFile (w.join d "values.yaml") = .ok c →
      (w'.unmarshalValues c).1 = (w.unmarshalValues c).1) :
    checkAndParseHelmFiles w' dirs = checkAndParseHelmFiles w dirs := by
  induction dirs with
  | nil => rfl
  | cons d ds ih =>
    have ih' := ih (fun x hx => hchart x (List.mem_cons_of_mem d hx))
      (fun x hx => hvalues x (List.mem_cons_of_mem d hx))
    simp only [checkAndParseHelmFiles, hjoin, hstat, hread, ih']
    cases hc : w.readFile (w.join d "Chart.yaml") with
    | error e => rfl
    | ok chartContent =>
      cases hv : w.readFile (w.join d "values.yaml") with
      | error e => rfl
      | ok valuesContent =>
        simp only [hchart d (List.mem_cons_self d ds) chartContent hc,
          hvalues d (List.mem_cons_self d ds) valuesContent hv]

/-- C4, as the code has it. The errors of the two decoders are never looked at: the
result is the one obtained with decoders that fill the structs alike and report
nothing. Hence, when every failed decode of a candidate's document leaves its struct
empty, the result is the one obtained if the failing documents had none of the
fields; and a candidate whose values document fails to decode and leaves the
repository empty is passed over, the loop going on with the following candidates. -/
theorem checkAndParseHelmFiles_parse_errors_dropped (w : World) (dirs : List String) :
    checkAndParseHelmFiles w dirs = checkAndParseHelmFiles (withoutParseErrors w) dirs ∧
    ((∀ d ∈ dirs, ∀ c, w.readFile (w.join d "Chart.yaml") = .ok c →
        (w.unmarshalChart c).2 ≠ none → (w.unmarshalChart c).1 = ⟨""⟩) →
      (∀ d ∈ dirs, ∀ c, w.readFile (w.join d "values.yaml") = .ok c →
        (w.unmarshalValues c).2 ≠ none → (w.unmarshalValues c).1 = ⟨⟨"", ""⟩⟩) →
      checkAndParseHelmFiles w dirs = checkAndParseHelmFiles (fieldsAbsentOnFailure w) dirs) ∧
    (∀ chartDir rest chartContent valuesContent,
      w.readFile (w.join chartDir "Chart.yaml") = .ok chartContent →
      w.readFile (w.join chartDir "values.yaml") = .ok valuesContent →
      (w.unmarshalValues valuesContent).2 ≠ none →
      (w.unmarshalValues valuesContent).1.Image.Repository = "" →
      checkAndParseHelmFiles w (chartDir :: rest) = checkAndParseHelmFiles w rest) := by
  refine ⟨?_, ?_, ?_⟩
  · exact (checkAndParseHelmFiles_congr w (withoutParseErrors w) dirs rfl rfl rfl
      (fun _ _ _ _ => rfl) (fun _ _ _ _ => rfl)).symm
  · intro hc hv
    refine (checkAndParseHelmFiles_congr w (fieldsAbsentOnFailure w) dirs rfl rfl rfl
      (fun d hd c hread => ?_) (fun d hd c hread => ?_)).symm
    · have := hc d hd c hread
      simp only [fieldsAbsentOnFailure]
      rcases hcase : w.unmarshalChart c with ⟨data, _ | err⟩
      · rfl
      · simp [hcase] at this; simp [this]
    · have := hv d hd c hread
      simp only [fieldsAbsentOnFailure]
      rcases hcase : w.unmarshalValues c with ⟨data, _ | err⟩
      · rfl
      · simp [hcase] at this; simp [this]
  · intro chartDir rest chartContent valuesContent hrc hrv _ hrepo
    exact checkAndParseHelmFiles_skip w chartDir rest
      (Or.inr (Or.inr ⟨chartContent, valuesContent, hrc, hrv, hrepo⟩))

/-- Witness of C4: both documents of `charts/api` are cut short, the decoders report
it and fill nothing; the result is that of the following candidate, as with decoders
that report nothing and as with documents without fields. -/
theorem checkAndParseHelmFiles_parse_errors_dropped_witness :
    checkAndParseHelmFiles truncatedWorld ["charts/api", "charts/web"] =
      checkAndParseHelmFiles (fieldsAbsentOnFailure truncatedWorld) ["charts/api", "charts/web"] ∧
    checkAndParseHelmFiles truncatedWorld ["charts/api", "charts/web"] =
      checkAndParseHelmFiles truncatedWorld ["charts/web"] ∧
    checkAndParseHelmFiles truncatedWorld ["charts/web"] = .ok "example/web:v3" :=
  ⟨(checkAndParseHelmFiles_parse_errors_dropped truncatedWorld ["charts/api", "charts/web"]).2.1
      (by
        intro d _ c _
        show (exampleChartDecoder c).2 ≠ none → (exampleChartDecoder c).1 = ⟨""⟩
        unfold exampleChartDecoder
        split <;> simp)
      (by
        intro d _ c _
        show (exampleValuesDecoder c).2 ≠ none → (exampleValuesDecoder c).1 = ⟨⟨"", ""⟩⟩
        unfold exampleValuesDecoder
        split <;> simp),
   (checkAndParseHelmFiles_parse_errors_dropped truncatedWorld ["charts/api", "charts/web"]).2.2
      "charts/api" ["charts/web"] "appVersion: [1.2.0\n" "image:\n  repository: \"example/api\n"
      (by decide) (by decide) (by decide) (by decide),
   by decide⟩

/-- Counterexample to C4 as stated: the values document of `charts/api` fails to decode
(a sequence under `tag`), yet the decoder has filled `repository`, and the result is
`example/api:1.2.0`; were the fields of that document absent, the candidate would be
skipped and the result would be `example/web:v3`. -/
theorem checkAndParseHelmFiles_parse_failure_keeps_fields :
    mistypedTagWorld.readFile (mistypedTagWorld.join "charts/api" "values.yaml") =
      .ok "image:\n  repository: example/api\n  tag: [1]\n" ∧
    (mistypedTagWorld.unmarshalValues "image:\n  repository: example/api\n  tag: [1]\n").2 ≠ none ∧
    checkAndParseHelmFiles mistypedTagWorld ["charts/api", "charts/web"] =
      .ok "example/api:1.2.0" ∧
    checkAndParseHelmFiles (fieldsAbsentOnFailure mistypedTagWorld) ["charts/api", "charts/web"] =
      .ok "example/web:v3" ∧
    checkAndParseHelmFiles mistypedTagWorld ["charts/api", "charts/web"] ≠
      checkAndParseHelmFiles (fieldsAbsentOnFailure mistypedTagWorld) ["charts/api", "charts/web"] := by
  refine ⟨by decide, by decide, by decide, by decide, by decide⟩

/-- C5. Read errors propagate: when every candidate before `chartDir` is skipped and
`chartDir` passes both existence checks, a failure `err` to read its `Chart.yaml`, or
to read its `values.yaml` once `Chart.yaml` is read, makes the result the error `err`,
whatever candidates follow. -/
theorem checkAndParseHelmFiles_read_error (w : World) (skipped : List String)
    (chartDir : String) (later : List String) (err : GoError)
    (hskip : ∀ d ∈ skipped, SkipsCandidate w d)
    (hchart : (w.stat (w.join chartDir "Chart.yaml")).isNotExist = false)
    (hvalues : (w.stat (w.join chartDir "values.yaml")).isNotExist = false)
    (hread : w.readFile (w.join chartDir "Chart.yaml") = .error err ∨
      ∃ chartContent, w.readFile (w.join chartDir "Chart.yaml") = .ok chartContent ∧
        w.readFile (w.join chartDir "values.yaml") = .error err) :
    checkAndParseHelmFiles w (skipped ++ chartDir :: later) = .error err := by
  rw [checkAndParseHelmFiles_skip_all w skipped _ hskip]
  rcases hread with h | ⟨chartContent, hc, hv⟩
  · simp [checkAndParseHelmFiles, hchart, hvalues, h]
  · simp [checkAndParseHelmFiles, hchart, hvalues, hc, hv]

/-- Witness of C5: `charts/lib` is skipped, `charts/api/values.yaml` exists and cannot be
opened; the result is that error, not the reference of `charts/web`. -/
theorem checkAndParseHelmFiles_read_error_witness :
    checkAndParseHelmFiles unreadableWorld ["charts/lib", "charts/api", "charts/web"] =
      .error "open charts/api/values.yaml: permission denied" ∧
    checkAndParseHelmFiles unreadableWorld ["charts/web"] = .ok "example/web:v3" :=
  ⟨checkAndParseHelmFiles_read_error unreadableWorld ["charts/lib"] "charts/api" ["charts/web"]
      "open charts/api/values.yaml: permission denied"
      (by
        intro d hd
        simp only [List.mem_singleton] at hd
        subst hd
        exact Or.inl (by decide))
      (by decide) (by decide)
      (Or.inr ⟨"appVersion: 1.2.0\n", by decide, by decide⟩),
   by decide⟩

/-! ## Enumeration -/

/-- C6. Without a charts directory: when `Stat` of `<repoPath>/charts` reports that the
path does not exist, and likewise when it finds something that is not a directory,
`navigateToHelmChart` returns the empty sequence and no error. -/
theorem navigateToHelmChart_no_charts_dir (w : World) (repoPath : String) :
    ((w.stat (w.join repoPath "charts")).isNotExist = true →
      navigateToHelmChart w repoPath = .ok []) ∧
    (∀ info, w.stat (w.join repoPath "charts") = .found info → info.isDir = false →
      navigateToHelmChart w repoPath = .ok []) := by
  constructor
  · intro h
    simp [navigateToHelmChart, h]
  · intro info h hdir
    simp [navigateToHelmChart, h, StatResult.isNotExist, StatResult.info, hdir]

/-- Witness of C6: a checkout without an entry `charts`, and one whose `charts` is a
regular file. -/
theorem navigateToHelmChart_no_charts_dir_witness :
    navigateToHelmChart chartsFileWorld "empty" = .ok [] ∧
    navigateToHelmChart chartsFileWorld "repo" = .ok [] :=
  ⟨(navigateToHelmChart_no_charts_dir chartsFileWorld "empty").1 (by decide),
   (navigateToHelmChart_no_charts_dir chartsFileWorld "repo").2 ⟨false⟩ (by decide) rfl⟩

/-- C10 fails on the code: when `Stat` of `<repoPath>/charts` fails with an error other
than not-exist (here: permission denied), `os.IsNotExist(err)` is false, the test goes
on to `info.IsDir()` with a nil `info`, and `navigateToHelmChart` ends in a nil
dereference panic instead of returning a sequence or an error. -/
theorem navigateToHelmChart_panics_on_stat_failure :
    deniedWorld.stat (deniedWorld.join "repo" "charts") =
      .failed "stat repo/charts: permission denied" ∧
    navigateToHelmChart deniedWorld "repo" =
      .panic "runtime error: invalid memory address or nil pointer dereference" := by
  refine ⟨by decide, by decide⟩

/-! ## Inspection: `float64` rounding -/

theorem divRoundHalfEven_bounds (a b : Nat) (hb : 0 < b) :
    2 * (b * divRoundHalfEven a b) ≤ 2 * a + b ∧ 2 * a ≤ 2 * (b * divRoundHalfEven a b) + b := by
  have hdiv := Nat.div_add_mod a b
  have hmod := Nat.mod_lt a hb
  unfold divRoundHalfEven
  simp only
  split_ifs <;> (try simp only [Nat.mul_add, Nat.mul_one]) <;> omega

theorem divRoundHalfEven_one (a : Nat) : divRoundHalfEven a 1 = a := by
  simp [divRoundHalfEven, Nat.mod_one]

theorem bitLengthAux_le_iff (fuel : Nat) : ∀ n k : Nat, n ≤ fuel →
    (bitLengthAux fuel n ≤ k ↔ n < 2 ^ k) := by
  induction fuel with
  | zero =>
    intro n k h
    have : n = 0 := by omega
    subst this
    simp [bitLengthAux]
  | succ fuel ih =>
    intro n k h
    by_cases hn : n = 0
    · subst hn; simp [bitLengthAux]
    · simp only [bitLengthAux, hn, if_false]
      cases k with
      | zero => simp; omega
      | succ k =>
        rw [Nat.add_le_add_iff_right, ih (n / 2) k (by omega), pow_succ]
        omega

theorem bitLength_le_iff (n k : Nat) : bitLength n ≤ k ↔ n < 2 ^ k :=
  bitLengthAux_le_iff n n k (Nat.le_refl n)

theorem floorLog2Quot_le (a b : Nat) :
    floorLog2Quot a b ≤ (bitLength a : Int) - (bitLength b : Int) := by
  unfold floorLog2Quot
  simp only
  split_ifs <;> omega

theorem roundToFloat64_nat (n : Nat) (h0 : n ≠ 0) (h : n < 2 ^ 53) :
    ∃ j : Nat, roundToFloat64 false n 1 = ⟨false, n * 2 ^ j, -(j : Int)⟩ := by
  have hfl := floorLog2Quot_le n 1
  have hbn : bitLength n ≤ 53 := (bitLength_le_iff n 53).2 h
  have hb1 : bitLength 1 = 1 := by decide
  rw [hb1] at hfl
  refine ⟨(max (floorLog2Quot n 1 - 52) (-1074)).natAbs, ?_⟩
  unfold roundToFloat64
  simp only [h0, if_false]
  generalize he : max (floorLog2Quot n 1 - 52) (-1074) = e
  have hle : e ≤ 0 := by rw [← he]; omega
  by_cases hneg : e < 0
  · simp only [scaledNum, scaledDen, hneg, if_true, divRoundHalfEven_one, Float64.mk.injEq,
      true_and]
    omega
  · have : e = 0 := by omega
    subst this
    simp [scaledNum, scaledDen, divRoundHalfEven_one]

theorem roundToFloat64_quot (n j : Nat) (h0 : n ≠ 0) (h : n < 2 ^ 53) :
    ∃ s : Nat, 19 ≤ s ∧ roundToFloat64 false (n * 2 ^ j) (1000000 * 2 ^ j) =
      ⟨false, divRoundHalfEven (n * 2 ^ j * 2 ^ s) (1000000 * 2 ^ j), -(s : Int)⟩ := by
  have hpow : 0 < 2 ^ j := pow_pos (by norm_num) _
  have ha0 : n * 2 ^ j ≠ 0 := Nat.mul_ne_zero h0 (by omega)
  have hfl := floorLog2Quot_le (n * 2 ^ j) (1000000 * 2 ^ j)
  have hba : bitLength (n * 2 ^ j) ≤ 53 + j := by
    rw [bitLength_le_iff, pow_add]
    exact Nat.mul_lt_mul_of_pos_right h hpow
  have hbb : 20 + j ≤ bitLength (1000000 * 2 ^ j) := by
    by_contra hcon
    have hlt : bitLength (1000000 * 2 ^ j) ≤ 19 + j := by omega
    rw [bitLength_le_iff, pow_add] at hlt
    have : 2 ^ 19 * 2 ^ j ≤ 1000000 * 2 ^ j := Nat.mul_le_mul_right _ (by norm_num)
    omega
  refine ⟨(max (floorLog2Quot (n * 2 ^ j) (1000000 * 2 ^ j) - 52) (-1074)).natAbs, ?_, ?_⟩
  · omega
  · unfold roundToFloat64
    simp only [ha0, if_false]
    generalize he :
      max (floorLog2Quot (n * 2 ^ j) (1000000 * 2 ^ j) - 52) (-1074) = e
    have hneg : e < 0 := by rw [← he]; omega
    simp only [scaledNum, scaledDen, hneg, if_true, Float64.mk.injEq, true_and]
    omega

theorem nearestHundredth_of_roundings (n j s : Nat) (hs : 19 ≤ s) :
    NearestHundredth
      (divRoundHalfEven
        (100 * divRoundHalfEven (n * 2 ^ j * 2 ^ s) (1000000 * 2 ^ j)) (1 * 2 ^ s)) n := by
  have hJ : 0 < 2 ^ j := pow_pos (by norm_num) _
  have hP : 2 ^ 19 ≤ 2 ^ s := Nat.pow_le_pow_right (by decide) hs
  have hP0 : 0 < 1 * 2 ^ s := by omega
  obtain ⟨m1, m2⟩ := divRoundHalfEven_bounds (n * 2 ^ j * 2 ^ s) (1000000 * 2 ^ j) (by omega)
  generalize divRoundHalfEven (n * 2 ^ j * 2 ^ s) (1000000 * 2 ^ j) = m at m1 m2 ⊢
  obtain ⟨h1, h2⟩ := divRoundHalfEven_bounds (100 * m) (1 * 2 ^ s) hP0
  generalize divRoundHalfEven (100 * m) (1 * 2 ^ s) = h at h1 h2 ⊢
  generalize 2 ^ s = P at *
  generalize 2 ^ j = J at *
  have m1' : 2 * (1000000 * m) ≤ 2 * (n * P) + 1000000 := by
    have hmul : J * (2 * (1000000 * m)) ≤ J * (2 * (n * P) + 1000000) := by linarith
    exact Nat.le_of_mul_le_mul_left hmul hJ
  have m2' : 2 * (n * P) ≤ 2 * (1000000 * m) + 1000000 := by
    have hmul : J * (2 * (n * P)) ≤ J * (2 * (1000000 * m) + 1000000) := by linarith
    exact Nat.le_of_mul_le_mul_left hmul hJ
  constructor
  · by_contra hcon
    have hc : n + 5001 ≤ h * 10000 := by omega
    have := Nat.mul_le_mul_left P hc
    norm_num at hP
    linarith
  · by_contra hcon
    have hc : h * 10000 + 5001 ≤ n := by omega
    have := Nat.mul_le_mul_left P hc
    norm_num at hP
    linarith

theorem intOfFloat64_scaled (overflow : Int) (n j : Nat) (h : n < 2 ^ 53) :
    intOfFloat64 overflow ⟨false, n * 2 ^ j, -(j : Int)⟩ = (n : Int) := by
  have hpow : 0 < 2 ^ j := pow_pos (by norm_num) _
  have ht : (if -(j : Int) < 0 then n * 2 ^ j / 2 ^ (-(j : Int)).natAbs
      else n * 2 ^ j * 2 ^ (-(j : Int)).toNat) = n := by
    by_cases hj : j = 0
    · subst hj; simp
    · have hneg : -(j : Int) < 0 := by omega
      have habs : (-(j : Int)).natAbs = j := by omega
      rw [if_pos hneg, habs, Nat.mul_div_cancel _ hpow]
  have hrange : -(2 : Int) ^ 63 ≤ (n : Int) ∧ (n : Int) < (2 : Int) ^ 63 := by
    norm_num at h ⊢
    omega
  unfold intOfFloat64
  simp only [ht, Bool.false_eq_true, if_false]
  exact if_pos hrange

theorem float64DivMillion_scaled (m j : Nat) :
    float64DivMillion ⟨false, m, -(j : Int)⟩ = roundToFloat64 false m (1000000 * 2 ^ j) := by
  have hj : ¬ ((j : Int) < 0) := by omega
  simp [float64DivMillion, scaledNum, scaledDen, hj]

theorem formatFixed2_scaled (m s : Nat) :
    formatFixed2 ⟨false, m, -(s : Int)⟩ =
      renderHundredths (divRoundHalfEven (100 * m) (1 * 2 ^ s)) := by
  have hempty : ∀ t : String, "" ++ t = t := fun t => by
    apply String.ext
    simp
  have hs : ¬ ((s : Int) < 0) := by omega
  simp [formatFixed2, scaledNum, scaledDen, hempty, hs]

theorem sprintfSize_nearest (overflow : Int) (n : Nat) (h : n < 2 ^ 53) :
    ∃ k, sprintfSize (intOfFloat64 overflow (float64OfLiteral n 1)) =
        renderHundredths k ++ " MB" ∧ NearestHundredth k n := by
  by_cases h0 : n = 0
  · subst h0
    refine ⟨0, ?_, by unfold NearestHundredth; omega⟩
    have hz : intOfFloat64 overflow (float64OfLiteral ((0 : Nat) : Int) 1) = 0 := by
      simp [float64OfLiteral, roundToFloat64, intOfFloat64]
    rw [hz]
    decide
  · obtain ⟨j, hj⟩ := roundToFloat64_nat n h0 h
    obtain ⟨s, hs, hq⟩ := roundToFloat64_quot n j h0 h
    have hsign : ¬ ((n : Int) < 0) := by omega
    have hlit : float64OfLiteral (n : Int) 1 = ⟨false, n * 2 ^ j, -(j : Int)⟩ := by
      simp [float64OfLiteral, hsign, hj]
    have hof : float64OfInt (n : Int) = ⟨false, n * 2 ^ j, -(j : Int)⟩ := by
      simp [float64OfInt, hsign, hj]
    refine ⟨_, ?_, nearestHundredth_of_roundings n j s hs⟩
    rw [hlit, intOfFloat64_scaled overflow n j h]
    unfold sprintfSize
    rw [hof, float64DivMillion_scaled, hq, formatFixed2_scaled]

/-! ## Inspection: size and layers -/

theorem getImageSizeAndLayers_ok (w : World) (imageName inspectOut : String)
    (record : List (String × Json)) (others : List (List (String × Json)))
    (numerator : Int) (denominator : Nat) (rootFS : List (String × Json)) (layers : List Json)
    (hpresent : w.dockerImagesQ imageName ≠ "" ∨ w.dockerPull imageName = none)
    (hinspect : w.dockerInspect imageName = (inspectOut, none))
    (hjson : w.jsonUnmarshal inspectOut = .ok (record :: others))
    (hsize : record.lookup "Size" = some (.num numerator denominator))
    (hroot : record.lookup "RootFS" = some (.obj rootFS))
    (hlayers : rootFS.lookup "Layers" = some (.arr layers)) :
    getImageSizeAndLayers w imageName =
      .ok ⟨imageName,
        sprintfSize (intOfFloat64 w.intOverflow (float64OfLiteral numerator denominator)),
        layers.length⟩ := by
  have hpull :
      (if w.dockerImagesQ imageName = "" then w.dockerPull imageName else none) = none := by
    rcases hpresent with h | h
    · simp [h]
    · split <;> simp [h]
  unfold getImageSizeAndLayers
  simp only [hpull, hinspect, hjson, hsize, hroot, hlayers, assertFloat64, assertMap,
    assertSlice]

/-- C7, as the code has it. Size conversion: when the first inspection record reports
the byte count `n` and `n < 2 ^ 53`, the `Size` field is a number of hundredths `h`
written as `h / 100`, a point, two digits and ` MB`, where `h / 100` is a hundredth
nearest to `n / 1000000` (when `n / 1000000` lies halfway between two hundredths,
either of them). -/
theorem getImageSizeAndLayers_size (w : World) (imageName inspectOut : String)
    (record : List (String × Json)) (others : List (List (String × Json)))
    (rootFS : List (String × Json)) (layers : List Json) (n : Nat)
    (hn : n < 2 ^ 53)
    (hpresent : w.dockerImagesQ imageName ≠ "" ∨ w.dockerPull imageName = none)
    (hinspect : w.dockerInspect imageName = (inspectOut, none))
    (hjson : w.jsonUnmarshal inspectOut = .ok (record :: others))
    (hsize : record.lookup "Size" = some (.num n 1))
    (hroot : record.lookup "RootFS" = some (.obj rootFS))
    (hlayers : rootFS.lookup "Layers" = some (.arr layers)) :
    ∃ h : Nat,
      getImageSizeAndLayers w imageName =
        .ok ⟨imageName, renderHundredths h ++ " MB", layers.length⟩ ∧
      NearestHundredth h n := by
  obtain ⟨h, hfmt, hnear⟩ := sprintfSize_nearest w.intOverflow n hn
  refine ⟨h, ?_, hnear⟩
  rw [getImageSizeAndLayers_ok w imageName inspectOut record others n 1 rootFS layers
    hpresent hinspect hjson hsize hroot hlayers, hfmt]

/-- Witness of C7: 1,500,000 bytes give `1.50 MB`, 0 bytes give `0.00 MB`, 2,000,000
bytes give `2.00 MB`; 15,000 bytes, halfway between two hundredths, give `0.01 MB`. -/
theorem getImageSizeAndLayers_size_witness :
    getImageSizeAndLayers (sizedImageWorld 1500000 []) "example/app:1.0" =
      .ok ⟨"example/app:1.0", "1.50 MB", 0⟩ ∧
    getImageSizeAndLayers (sizedImageWorld 0 []) "example/app:1.0" =
      .ok ⟨"example/app:1.0", "0.00 MB", 0⟩ ∧
    getImageSizeAndLayers (sizedImageWorld 2000000 []) "example/app:1.0" =
      .ok ⟨"example/app:1.0", "2.00 MB", 0⟩ ∧
    getImageSizeAndLayers (sizedImageWorld 15000 []) "example/app:1.0" =
      .ok ⟨"example/app:1.0", "0.01 MB", 0⟩ := by
  refine ⟨?_, ?_, ?_, by decide⟩
  · obtain ⟨h, heq, hnear⟩ := getImageSizeAndLayers_size (sizedImageWorld 1500000 [])
      "example/app:1.0" "[{...}]" _ [] _ [] 1500000 (by norm_num) (Or.inl (by decide))
      rfl rfl rfl rfl rfl
    have h150 : h = 150 := by unfold NearestHundredth at hnear; omega
    subst h150
    rw [heq]; decide
  · obtain ⟨h, heq, hnear⟩ := getImageSizeAndLayers_size (sizedImageWorld 0 [])
      "example/app:1.0" "[{...}]" _ [] _ [] 0 (by norm_num) (Or.inl (by decide))
      rfl rfl rfl rfl rfl
    have h0 : h = 0 := by unfold NearestHundredth at hnear; omega
    subst h0
    rw [heq]; decide
  · obtain ⟨h, heq, hnear⟩ := getImageSizeAndLayers_size (sizedImageWorld 2000000 [])
      "example/app:1.0" "[{...}]" _ [] _ [] 2000000 (by norm_num) (Or.inl (by decide))
      rfl rfl rfl rfl rfl
    have h200 : h = 200 := by unfold NearestHundredth at hnear; omega
    subst h200
    rw [heq]; decide

/-- Counterexample to C7 as stated: for the byte count 9,007,199,254,755,001 the `Size`
field is `9007199254.75 MB`, while the hundredth nearest to 9007199254.755001 is
9007199254.76: the count is not a `float64`, it is stored as 9,007,199,254,755,000,
and the quotient by 1,000,000 is rounded once more before it is printed. -/
theorem getImageSizeAndLayers_size_not_nearest :
    getImageSizeAndLayers (sizedImageWorld 9007199254755001 []) "example/app:1.0" =
      .ok ⟨"example/app:1.0", "9007199254.75 MB", 0⟩ ∧
    ¬ ∃ h : Nat,
      getImageSizeAndLayers (sizedImageWorld 9007199254755001 []) "example/app:1.0" =
        .ok ⟨"example/app:1.0", renderHundredths h ++ " MB", 0⟩ ∧
      NearestHundredth h 9007199254755001 := by
  refine ⟨by decide, ?_⟩
  rintro ⟨h, heq, hnear⟩
  have hval : h = 900719925476 := by unfold NearestHundredth at hnear; omega
  subst hval
  revert heq
  decide

/-- C8. Layer count: when the image is present or pulled, the inspection command
succeeds, and the first decoded record has a numeric `Size` and a list `L` under
`RootFS.Layers`, the call succeeds with `Layers` the length of `L` (0 for the empty
list) and `Name` the reference passed in. -/
theorem getImageSizeAndLayers_layer_count (w : World) (imageName inspectOut : String)
    (record : List (String × Json)) (others : List (List (String × Json)))
    (numerator : Int) (denominator : Nat) (rootFS : List (String × Json)) (layers : List Json)
    (hpresent : w.dockerImagesQ imageName ≠ "" ∨ w.dockerPull imageName = none)
    (hinspect : w.dockerInspect imageName = (inspectOut, none))
    (hjson : w.jsonUnmarshal inspectOut = .ok (record :: others))
    (hsize : record.lookup "Size" = some (.num numerator denominator))
    (hroot : record.lookup "RootFS" = some (.obj rootFS))
    (hlayers : rootFS.lookup "Layers" = some (.arr layers)) :
    ∃ info, getImageSizeAndLayers w imageName = .ok info ∧
      info.Layers = layers.length ∧ info.Name = imageName ∧
      (layers = [] → info.Layers = 0) :=
  ⟨_, getImageSizeAndLayers_ok w imageName inspectOut record others numerator denominator
    rootFS layers hpresent hinspect hjson hsize hroot hlayers, rfl, rfl,
    fun h => by simp [h]⟩

/-- Witness of C8: `Size=2000000` and `RootFS.Layers=[a,b,c]` give `2.00 MB` and 3
layers; an empty layer list gives 0 layers. -/
theorem getImageSizeAndLayers_layer_count_witness :
    (∃ info, getImageSizeAndLayers pipelineWorld "example/web:v3" = .ok info ∧
      info.Layers = 3 ∧ info.Name = "example/web:v3" ∧
      ([Json.str "a", Json.str "b", Json.str "c"] = [] → info.Layers = 0)) ∧
    getImageSizeAndLayers pipelineWorld "example/web:v3" =
      .ok ⟨"example/web:v3", "2.00 MB", 3⟩ ∧
    getImageSizeAndLayers (sizedImageWorld 2000000 []) "example/app:1.0" =
      .ok ⟨"example/app:1.0", "2.00 MB", 0⟩ :=
  ⟨getImageSizeAndLayers_layer_count pipelineWorld "example/web:v3" "[{...}]" _ [] 2000000 1
      _ [.str "a", .str "b", .str "c"] (Or.inr (by decide)) rfl rfl rfl rfl rfl,
   by decide, by decide⟩

/-! ## The handler -/

/-- C9. Short circuit and status mapping: the stages run in the order retrieve,
enumerate, resolve, inspect; the first one that returns an error ends the request,
no later stage is called, `http.Error` receives that error's message unchanged, with
status 500 for retrieval and inspection and 404 for enumeration and resolution; the
page is rendered with the inspected `ImageInfo` when all four succeed, and only
then. -/
theorem imageDetailsHandler_short_circuit (w : World) (repoURL : String) :
    (∀ err, cloneHelmRepo w repoURL = .error err →
      imageDetailsHandler w repoURL = ⟨.httpError err 500, [.retrieve]⟩) ∧
    (∀ dir err, cloneHelmRepo w repoURL = .ok dir →
      navigateToHelmChart w dir = .error err →
      imageDetailsHandler w repoURL = ⟨.httpError err 404, [.retrieve, .enumerate]⟩) ∧
    (∀ dir dirs err, cloneHelmRepo w repoURL = .ok dir →
      navigateToHelmChart w dir = .ok dirs →
      checkAndParseHelmFiles w dirs = .error err →
      imageDetailsHandler w repoURL =
        ⟨.httpError err 404, [.retrieve, .enumerate, .resolve]⟩) ∧
    (∀ dir dirs image err, cloneHelmRepo w repoURL = .ok dir →
      navigateToHelmChart w dir = .ok dirs →
      checkAndParseHelmFiles w dirs = .ok image →
      getImageSizeAndLayers w image = .error err →
      imageDetailsHandler w repoURL =
        ⟨.httpError err 500, [.retrieve, .enumerate, .resolve, .inspect]⟩) ∧
    (∀ dir dirs image info, cloneHelmRepo w repoURL = .ok dir →
      navigateToHelmChart w dir = .ok dirs →
      checkAndParseHelmFiles w dirs = .ok image →
      getImageSizeAndLayers w image = .ok info →
      w.parseFiles "templates/image_details.html" = none →
      imageDetailsHandler w repoURL =
        ⟨.page "templates/image_details.html" info,
          [.retrieve, .enumerate, .resolve, .inspect]⟩) ∧
    (∀ template info, (imageDetailsHandler w repoURL).response = .page template info →
      ∃ dir dirs image, cloneHelmRepo w repoURL = .ok dir ∧
        navigateToHelmChart w dir = .ok dirs ∧
        checkAndParseHelmFiles w dirs = .ok image ∧
        getImageSizeAndLayers w image = .ok info) := by
  refine ⟨?_, ?_, ?_, ?_, ?_, ?_⟩
  · intro err h
    simp [imageDetailsHandler, h, statusInternalServerError]
  · intro dir err h1 h2
    simp [imageDetailsHandler, h1, h2, statusNotFound]
  · intro dir dirs err h1 h2 h3
    simp [imageDetailsHandler, h1, h2, h3, statusNotFound]
  · intro dir dirs image err h1 h2 h3 h4
    simp [imageDetailsHandler, h1, h2, h3, h4, statusInternalServerError]
  · intro dir dirs image info h1 h2 h3 h4 h5
    simp [imageDetailsHandler, h1, h2, h3, h4, h5]
  · intro template info h
    rcases h1 : cloneHelmRepo w repoURL with err | dir
    · simp [imageDetailsHandler, h1] at h
    rcases h2 : navigateToHelmChart w dir with dirs | err | msg
    · rcases h3 : checkAndParseHelmFiles w dirs with err | image
      · simp [imageDetailsHandler, h1, h2, h3] at h
      rcases h4 : getImageSizeAndLayers w image with info' | err | msg
      · rcases h5 : w.parseFiles "templates/image_details.html" with _ | err
        · simp [imageDetailsHandler, h1, h2, h3, h4, h5] at h
          exact ⟨dir, dirs, image, rfl, h2, h3, by rw [h4, h.2]⟩
        · simp [imageDetailsHandler, h1, h2, h3, h4, h5] at h
      · simp [imageDetailsHandler, h1, h2, h3, h4] at h
      · simp [imageDetailsHandler, h1, h2, h3, h4] at h
    · simp [imageDetailsHandler, h1, h2] at h
    · simp [imageDetailsHandler, h1, h2] at h

/-- Witness of C9: a failed clone gives 500 after one stage, an unlistable charts
directory gives 404 after two, a checkout without usable chart gives 404 after three,
a failed pull gives 500 after four, and the complete run renders the page. -/
theorem imageDetailsHandler_short_circuit_witness :
    imageDetailsHandler cloneFailsWorld "https://github.com/example/charts.git" =
      ⟨.httpError "git clone failed: exit status 128" 500, [.retrieve]⟩ ∧
    imageDetailsHandler unlistableWorld "https://github.com/example/charts.git" =
      ⟨.httpError ("failed to read charts directory: " ++
        "open repo_db/20250403153000_charts/charts: permission denied") 404,
        [.retrieve, .enumerate]⟩ ∧
    imageDetailsHandler pipelineWorld "https://github.com/example/empty" =
      ⟨.httpError "no valid Helm chart found" 404, [.retrieve, .enumerate, .resolve]⟩ ∧
    imageDetailsHandler pullFailsWorld "https://github.com/example/charts.git" =
      ⟨.httpError "failed to pull image: exit status 1" 500,
        [.retrieve, .enumerate, .resolve, .inspect]⟩ ∧
    imageDetailsHandler pipelineWorld "https://github.com/example/charts.git" =
      ⟨.page "templates/image_details.html" ⟨"example/web:v3", "2.00 MB", 3⟩,
        [.retrieve, .enumerate, .resolve, .inspect]⟩ :=
  ⟨(imageDetailsHandler_short_circuit cloneFailsWorld
      "https://github.com/example/charts.git").1 _ (by decide),
   (imageDetailsHandler_short_circuit unlistableWorld
      "https://github.com/example/charts.git").2.1 "repo_db/20250403153000_charts" _
      (by decide) (by decide),
   (imageDetailsHandler_short_circuit pipelineWorld
      "https://github.com/example/empty").2.2.1 "repo_db/20250403153000_empty" [] _
      (by decide) (by decide) (by decide),
   (imageDetailsHandler_short_circuit pullFailsWorld
      "https://github.com/example/charts.git").2.2.2.1 "repo_db/20250403153000_charts"
      ["repo_db/20250403153000_charts/charts/api", "repo_db/20250403153000_charts/charts/web"]
      "example/web:v3" _ (by decide) (by decide) (by decide) (by decide),
   (imageDetailsHandler_short_circuit pipelineWorld
      "https://github.com/example/charts.git").2.2.2.2.1 "repo_db/20250403153000_charts"
      ["repo_db/20250403153000_charts/charts/api", "repo_db/20250403153000_charts/charts/web"]
      "example/web:v3" ⟨"example/web:v3", "2.00 MB", 3⟩
      (by decide) (by decide) (by decide) (by decide) (by decide)⟩

end HelmParser
